import Mathlib

/-!
Shallow embedding of `xaux.protectfile` (`ProtectFile`), a lockfile-based
cross-process file-protection scope, together with proofs about the claims
of the specification.

The embedding translates the source functions of `src/xaux/protectfile.py`
into executable Lean definitions:

* the lockfile wire format (`LockInfo`) keeps every field optional, because
  the JSON record on disk may be missing fields;
* stateful code is explicit state passing over a small filesystem state
  (`FS`) holding the content of the five on-disk slots a scope touches
  (target, lockfile, tempfile, backupfile, result sidecar);
* fallible code (Python raises) returns `Option`/`Except`;
* wall-clock times and wait durations are rationals.
-/

namespace ProtectFile

/-- Identity of a scope: `(self._pid, self._ran, self._machine)` as created in
`__init__` (pid from `os.getpid()`, `ran` a 64-bit random nonce, machine the
host name). -/
structure Identity where
  pid : Int
  ran : Int
  machine : String
deriving DecidableEq, Repr

/-- A parsed lockfile record, as written by `_lock_is_available` via
`json.dump({'pid', 'ran', 'machine', 'free_after'})`.  Every field is
optional because a record read back from disk may be missing any of them. -/
structure LockInfo where
  pid : Option Int
  ran : Option Int
  machine : Option String
  free_after : Option ℚ
deriving DecidableEq, Repr

/-- The record a scope writes into the lockfile: its own identity plus the
`free_after` field (`_lock_is_available`, the `json.dump` call). -/
def lock_record (me : Identity) (free_after : ℚ) : LockInfo :=
  { pid := some me.pid, ran := some me.ran, machine := some me.machine,
    free_after := some free_after }

/-- The `free_after` value written into the lockfile: `time.time() +
max_lock_time` when a max lock time is given, `-1` otherwise
(`_lock_is_available`, lines computing `free_after`). -/
def free_after_value (now : ℚ) (max_lock_time : Option ℚ) : ℚ :=
  match max_lock_time with
  | some m => now + m
  | none => -1

/-- Embedding of `ProtectFile._lock_is_ours`: the argument is the result of
opening and JSON-parsing the lockfile (`none` = `json.load` failed).  The
code returns `False` on parse failure, on a missing or mismatched `pid`,
`ran` or `machine`, and `True` otherwise; `free_after` is only used for an
informational overrun warning and never affects the returned value. -/
def lock_is_ours (parsed : Option LockInfo) (me : Identity) : Bool :=
  match parsed with
  | none => false
  | some info =>
    if info.pid ≠ some me.pid then false
    else if info.ran ≠ some me.ran then false
    else if info.machine ≠ some me.machine then false
    else true

/-! ## Wait times and the acquisition double-check

`_wait` sleeps `random.uniform(wait*0.6, wait*1.4)`.  `_lock_is_available`
has signature `(self, flock, max_lock_time=None, local_file=None, wait=1)`
and sleeps `random.uniform(wait*0.6, wait*1.4)` between writing its record
and re-reading the lockfile.  Both call sites in `__init__`
(`self._lock_is_available(flock, max_lock_time)` and the EOS variant) pass
no `wait` argument, so the double-check always uses the Python default. -/

/-- `LOCKFILE_NESTING_MAX_LEVEL = 5`. -/
def LOCKFILE_NESTING_MAX_LEVEL : ℕ := 5

/-- `LOCKFILE_NESTING_MAX_LOCK_TIME = 10`. -/
def LOCKFILE_NESTING_MAX_LOCK_TIME : ℚ := 10

/-- `LOCKFILE_NESTING_WAIT = 0.1`. -/
def LOCKFILE_NESTING_WAIT : ℚ := 1/10

/-- The scope's configured inter-retry delay: `wait = arg.pop('wait', 1)`,
overridden to `LOCKFILE_NESTING_WAIT` when `self._nesting_level > 0`. -/
def configured_wait (nesting : ℕ) (user_wait : ℚ) : ℚ :=
  if 0 < nesting then LOCKFILE_NESTING_WAIT else user_wait

/-- The default of the `wait` parameter in the signature of
`_lock_is_available`; the calls in `__init__` do not pass `wait`, so this
default is what the double-check sleep actually uses. -/
def lock_is_available_default_wait : ℚ := 1

/-- The lower and upper bound of a jittered sleep
`random.uniform(wait*0.6, wait*1.4)`. -/
def uniform_bounds (wait : ℚ) : ℚ × ℚ := (3/5 * wait, 7/5 * wait)

/-- The observable events of one `_lock_is_available` call, in source
order: write the record into the lockfile, sleep a jittered duration
`uniform(0.6*wait, 1.4*wait)`, re-read the lockfile
(`self._lock_is_ours(lockfile)`). -/
inductive AcqEvent
  | write_record (record : LockInfo)
  | sleep_uniform (lo hi : ℚ)
  | reread_lock
deriving DecidableEq, Repr

/-- Event trace of `_lock_is_available` as a function of the `wait`
argument it receives. -/
def lock_is_available_events (record : LockInfo) (wait : ℚ) : List AcqEvent :=
  [AcqEvent.write_record record,
   AcqEvent.sleep_uniform (3/5 * wait) (7/5 * wait),
   AcqEvent.reread_lock]

/-- Event trace of the `_lock_is_available` call made from the acquisition
loop in `__init__`: `self._lock_is_available(flock, max_lock_time)` passes
no `wait`, so the callee runs with its default `wait = 1`. -/
def init_lock_attempt_events (record : LockInfo) : List AcqEvent :=
  lock_is_available_events record lock_is_available_default_wait

/-! ## The busy-lock branch of the acquisition loop -/

/-- What `__init__` does after `io.open(self.lockfile, 'x')` raised
`FileExistsError` and the jittered retry sleep finished. -/
inductive BusyAction
  | retry_only
  | reclaim
  | too_many_locks
deriving DecidableEq, Repr

/-- Embedding of the `except FileExistsError` branch of `__init__`:
if `max_lock_time is not None`, then if `self._nesting_level <
LOCKFILE_NESTING_MAX_LEVEL` a nested reclaim scope is opened, else
`RuntimeError("Too many lockfiles!")` is raised; with no `max_lock_time`
the loop simply retries. -/
def lock_busy_action (max_lock_time : Option ℚ) (nesting : ℕ) : BusyAction :=
  match max_lock_time with
  | none => BusyAction.retry_only
  | some _ =>
    if nesting < LOCKFILE_NESTING_MAX_LEVEL then BusyAction.reclaim
    else BusyAction.too_many_locks

/-- The `max_lock_time` a scope actually runs with: `__init__` overrides the
user value with `LOCKFILE_NESTING_MAX_LOCK_TIME` whenever
`self._nesting_level > 0`. -/
def effective_max_lock_time (nesting : ℕ) (user : Option ℚ) : Option ℚ :=
  if 0 < nesting then some LOCKFILE_NESTING_MAX_LOCK_TIME else user

/-- Embedding of the body of the nested reclaim scope in `__init__`:
`info = json.load(pf)` (`none` = parse failure, which `continue`s without
unlinking), then the outer lockfile is unlinked exactly when
`'free_after' in info and info['free_after'] < time.time()`. -/
def reclaim_unlinks_outer (parsed : Option LockInfo) (now : ℚ) : Bool :=
  match parsed with
  | none => false
  | some info =>
    match info.free_after with
    | none => false
    | some fa => decide (fa < now)

/-! ## Target-path model and the pre-lock checks of `__init__` -/

/-- Modelled from the spec: the path abstraction `FsPath` (the `xaux.fs`
module) is not under `src/`; spec section 6 gives its operations `resolve`
(canonicalize), `exists`, `is_file`.  A canonicalized path has no symlink
components, so after `arg['file'] = FsPath(arg['file']).resolve()` in
`__init__` the node kind a check sees is the node the original path
resolves to. -/
inductive FsNode
  | regular
  | directory
  | missing
deriving DecidableEq, Repr

/-- Modelled from the spec: a user-supplied target path, recording whether
the path as given is a symbolic link, and the node it canonicalizes to
(for a non-symlink path, the node it is; for a broken symlink,
`FsNode.missing`). -/
structure TargetPath where
  is_symlink : Bool
  node : FsNode
deriving DecidableEq, Repr

/-- Modelled from the spec: `resolve` canonicalizes, yielding the resolved
node. -/
def fs_resolve (p : TargetPath) : FsNode := p.node

/-- Modelled from the spec: `is_file` on the resolved path holds exactly
for a regular file. -/
def path_is_file (p : TargetPath) : Bool := decide (fs_resolve p = FsNode.regular)

/-- Modelled from the spec: `exists` on the resolved path holds unless the
node is missing. -/
def path_exists (p : TargetPath) : Bool := decide (fs_resolve p ≠ FsNode.missing)

/-- Embedding of the type check in `__init__`:
`self._exists = True if self.file.is_file() else False;
if not self._exists and self.file.exists(): raise NotImplementedError`. -/
def init_raises_not_implemented (p : TargetPath) : Bool :=
  !path_is_file p && path_exists p

/-- The errors `__init__` can raise before any lockfile work. -/
inductive InitError
  | not_implemented
  | file_not_found
  | file_exists_error
deriving DecidableEq, Repr

/-- Embedding of the pre-lock phase of `__init__`, in source order: the
directory/symlink check, then `if 'r' in mode: if not self._exists: raise
FileNotFoundError`, then `elif 'x' in mode: if self._exists: raise
FileExistsError`.  Returns the raised error, or `none` when `__init__`
proceeds (towards the lockfile acquisition loop).  The mode string is
embedded as its list of characters, so `'r' in mode` is
`mode.contains 'r'`. -/
def init_prelock (p : TargetPath) (mode : List Char) : Option InitError :=
  if init_raises_not_implemented p then some InitError.not_implemented
  else if mode.contains 'r' then
    if !path_is_file p then some InitError.file_not_found else none
  else if mode.contains 'x' then
    if path_is_file p then some InitError.file_exists_error else none
  else none

/-- Whether `__init__` reaches the lockfile acquisition loop (the first
statement that touches `self.lockfile`): exactly when no pre-lock check
raised. -/
def init_lock_work_reached (p : TargetPath) (mode : List Char) : Bool :=
  (init_prelock p mode).isNone

/-! ## Filesystem state and the exit path

`FS` holds the content of the on-disk slots one scope touches.  File
contents are strings; `none` means the file does not exist.  The lockfile
slot distinguishes a missing file, an unparseable file, and a parsed
record. -/

/-- State of the lockfile on disk. -/
inductive LockFileState
  | absent
  | garbled
  | recorded (i : LockInfo)
deriving DecidableEq, Repr

/-- The on-disk state a scope interacts with: the target file, its
lockfile, the scope's temporary (shadow) file, its backup file, and the
timestamped `.result` sidecar. -/
structure FS where
  target : Option String
  lock : LockFileState
  temp : Option String
  backup : Option String
  result : Option String
deriving DecidableEq, Repr

/-- Abstraction of `get_hash` (BLAKE2b over the file content, chunked):
modelled as a collision-free function of the content, so that two contents
hash equal exactly when they are equal. -/
def get_hash (content : String) : String := content

/-- The configuration and recorded state of a fully constructed scope, as
set up by `__init__`. -/
structure Scope where
  access : Bool
  use_temporary : Bool
  do_backup : Bool
  keep_backup : Bool
  check_hash : Bool
  nesting_level : ℕ
  target_existed : Bool
  baseline_hash : String
  me : Identity
deriving DecidableEq, Repr

/-- Embedding of `mv_temp(destination=None)`: no effect unless
`self._access` and `self._use_temporary`; otherwise copy the temporary
file onto the target and unlink it.  `none` models the raise when the
temporary file is missing (`copy_to` of a nonexistent file). -/
def mv_temp_publish (sc : Scope) (fs : FS) : Option FS :=
  if sc.access && sc.use_temporary then
    match fs.temp with
    | none => none
    | some t => some { fs with target := some t, temp := none }
  else some fs

/-- Embedding of `mv_temp(alt_file)` as called from `restore`: copy the
temporary file to the `.result` sidecar and unlink it, under the same
guards as `mv_temp_publish`. -/
def mv_temp_result (sc : Scope) (fs : FS) : Option FS :=
  if sc.access && sc.use_temporary then
    match fs.temp with
    | none => none
    | some t => some { fs with result := some t, temp := none }
  else some fs

/-- Embedding of `restore`: no effect without `self._access`; otherwise,
when `self._do_backup`, `self.backupfile.rename(self.file)` (the backup is
moved onto the target, consuming the backup file; `none` models the raise
when there is no backup file to rename), and then, when
`self._use_temporary`, the temporary file is sidelined to the `.result`
file via `mv_temp(alt_file)`. -/
def restore (sc : Scope) (fs : FS) : Option FS :=
  if !sc.access then some fs
  else
    let step1 : Option FS :=
      if sc.do_backup then
        match fs.backup with
        | none => none
        | some b => some { fs with target := some b, backup := none }
      else some fs
    step1.bind (fun fs1 => mv_temp_result sc fs1)

/-- The tempfile-unlinking step of `release`. -/
def release_temp (fs : FS) : FS :=
  if fs.temp.isSome then { fs with temp := none } else fs

/-- The backup-unlinking step of `release`: unlink the backup when
`self._do_backup` holds, the backup file exists, and `self._keep_backup`
does not hold. -/
def release_backup (sc : Scope) (fs : FS) : FS :=
  if sc.do_backup && fs.backup.isSome && !sc.keep_backup then
    { fs with backup := none }
  else fs

/-- The lockfile-unlinking step of `release`: unlink the lockfile whenever
a file exists there (no ownership check). -/
def release_lock_step (fs : FS) : FS :=
  if fs.lock == LockFileState.absent then fs
  else { fs with lock := LockFileState.absent }

/-- Embedding of `release` on a fully constructed scope (every attribute
the `hasattr` guards test is present): no effect without `self._access`;
otherwise unlink the temporary file, the backup (unless kept), and the
lockfile, each only when present. -/
def release (sc : Scope) (fs : FS) : FS :=
  if !sc.access then fs
  else release_lock_step (release_backup sc (release_temp fs))

/-- Opening and parsing the lockfile in `__exit__` via `_lock_is_ours`:
`io.open` on a missing lockfile raises (`none`); an unparseable file yields
a failed parse (`some none`); otherwise the parsed record. -/
def exit_lock_parse (st : LockFileState) : Option (Option LockInfo) :=
  match st with
  | LockFileState.absent => none
  | LockFileState.garbled => some none
  | LockFileState.recorded i => some (some i)

/-- The corruption check of `__exit__`: only at nesting level 0 with
`check_hash` on a pre-existing target is the target rehashed
(`none` models the raise when the target file is missing); the result is
`file_changed`. -/
def file_changed_check (sc : Scope) (fs : FS) : Option Bool :=
  if (sc.nesting_level == 0) && sc.check_hash && sc.target_existed then
    match fs.target with
    | none => none
    | some t => some (get_hash t ≠ sc.baseline_hash)
  else some false

/-- Embedding of `__exit__`: return unchanged without `self._access`;
close the stream (no filesystem effect); if the lock is no longer ours,
`restore` then `release`; otherwise, if the corruption check reports a
changed hash, `restore` then `release`, else publish the temporary file
(`mv_temp`) then `release`. -/
def scope_exit (sc : Scope) (fs : FS) : Option FS :=
  if !sc.access then some fs
  else
    match exit_lock_parse fs.lock with
    | none => none
    | some parsed =>
      if !lock_is_ours parsed sc.me then
        (restore sc fs).map (release sc)
      else
        match file_changed_check sc fs with
        | none => none
        | some true => (restore sc fs).map (release sc)
        | some false => (mv_temp_publish sc fs).map (release sc)

/-! ## `release` on a partially constructed scope

`__init__` can raise before `self._access = False` is assigned (the
directory/symlink check, the `FileNotFoundError`/`FileExistsError`
checks).  `release` guards every attribute access with `hasattr` except
the very first one, `if not self._access: return`. -/

/-- Which attributes of a possibly half-constructed scope object exist,
and their values when they do.  `has_backup` stands for `self._backup`
being set to an actual path (when it is set to `None`, the
`hasattr(self._backup, 'is_file')` guard fails the same way as an absent
attribute). -/
structure ScopeAttrs where
  has_access : Bool
  access : Bool
  has_temp : Bool
  has_do_backup : Bool
  do_backup : Bool
  has_backup : Bool
  has_keep_backup : Bool
  keep_backup : Bool
  has_lock : Bool
deriving DecidableEq, Repr

/-- The exception release can raise. -/
inductive PyError
  | attribute_error
deriving DecidableEq, Repr

/-- Embedding of `release` on an arbitrary (possibly half-constructed)
scope object.  The first statement `if not self._access: return` reads
`self._access` without a `hasattr` guard, so it raises `AttributeError`
when the attribute was never assigned; every later step is `hasattr`
guarded exactly as in the source. -/
def release_attrs (sc : ScopeAttrs) (fs : FS) : Except PyError FS :=
  if !sc.has_access then Except.error PyError.attribute_error
  else if !sc.access then Except.ok fs
  else
    let fs1 := if sc.has_temp && fs.temp.isSome then { fs with temp := none } else fs
    let keep_guard : Bool := !sc.has_keep_backup || !sc.keep_backup
    let fs2 := if sc.has_do_backup && sc.do_backup && sc.has_backup
                  && fs1.backup.isSome && keep_guard then
                 { fs1 with backup := none }
               else fs1
    let fs3 := if sc.has_lock && !(fs2.lock == LockFileState.absent) then
                 { fs2 with lock := LockFileState.absent }
               else fs2
    Except.ok fs3

/-! ## Helper lemmas about the release, restore and exit paths -/

theorem release_temp_target (fs : FS) : (release_temp fs).target = fs.target := by
  unfold release_temp
  split <;> rfl

theorem release_temp_backup (fs : FS) : (release_temp fs).backup = fs.backup := by
  unfold release_temp
  split <;> rfl

theorem release_temp_result (fs : FS) : (release_temp fs).result = fs.result := by
  unfold release_temp
  split <;> rfl

theorem release_temp_lock (fs : FS) : (release_temp fs).lock = fs.lock := by
  unfold release_temp
  split <;> rfl

theorem release_backup_target (sc : Scope) (fs : FS) :
    (release_backup sc fs).target = fs.target := by
  unfold release_backup
  split <;> rfl

theorem release_backup_result (sc : Scope) (fs : FS) :
    (release_backup sc fs).result = fs.result := by
  unfold release_backup
  split <;> rfl

theorem release_backup_lock (sc : Scope) (fs : FS) :
    (release_backup sc fs).lock = fs.lock := by
  unfold release_backup
  split <;> rfl

theorem release_backup_of_none (sc : Scope) (fs : FS) (h : fs.backup = none) :
    (release_backup sc fs).backup = none := by
  unfold release_backup
  split <;> simp [h]

theorem release_lock_step_target (fs : FS) :
    (release_lock_step fs).target = fs.target := by
  unfold release_lock_step
  split <;> rfl

theorem release_lock_step_result (fs : FS) :
    (release_lock_step fs).result = fs.result := by
  unfold release_lock_step
  split <;> rfl

theorem release_lock_step_backup (fs : FS) :
    (release_lock_step fs).backup = fs.backup := by
  unfold release_lock_step
  split <;> rfl

theorem release_lock_step_lock (fs : FS) :
    (release_lock_step fs).lock = LockFileState.absent := by
  by_cases h : fs.lock = LockFileState.absent <;> simp [release_lock_step, h]

/-- With `self._access` set, `release` always ends with the lockfile gone. -/
theorem release_lock_absent (sc : Scope) (fs : FS) (h : sc.access = true) :
    (release sc fs).lock = LockFileState.absent := by
  unfold release
  rw [h]
  simpa using release_lock_step_lock (release_backup sc (release_temp fs))

theorem release_target (sc : Scope) (fs : FS) : (release sc fs).target = fs.target := by
  unfold release
  split
  · rfl
  · rw [release_lock_step_target, release_backup_target, release_temp_target]

theorem release_result (sc : Scope) (fs : FS) : (release sc fs).result = fs.result := by
  unfold release
  split
  · rfl
  · rw [release_lock_step_result, release_backup_result, release_temp_result]

theorem release_backup_none (sc : Scope) (fs : FS) (h : fs.backup = none) :
    (release sc fs).backup = none := by
  unfold release
  split
  · exact h
  · rw [release_lock_step_backup]
    exact release_backup_of_none sc (release_temp fs) (by rw [release_temp_backup, h])

/-- `restore` on a backed-up, shadowing scope: the backup is renamed onto
the target and the temporary file is sidelined to the `.result` file. -/
theorem restore_eq_temp (sc : Scope) (fs : FS) (b w : String)
    (hacc : sc.access = true) (hbk : sc.do_backup = true)
    (hb : fs.backup = some b) (hut : sc.use_temporary = true) (hw : fs.temp = some w) :
    restore sc fs = some
      { target := some b, lock := fs.lock, temp := none, backup := none,
        result := some w } := by
  unfold restore mv_temp_result
  simp [hacc, hbk, hb, hut, hw]

/-- `restore` on a backed-up scope without shadowing: only the rename of
the backup onto the target happens. -/
theorem restore_eq_notemp (sc : Scope) (fs : FS) (b : String)
    (hacc : sc.access = true) (hbk : sc.do_backup = true)
    (hb : fs.backup = some b) (hut : sc.use_temporary = false) :
    restore sc fs = some
      { target := some b, lock := fs.lock, temp := fs.temp, backup := none,
        result := fs.result } := by
  unfold restore mv_temp_result
  simp [hacc, hbk, hb, hut]

theorem file_changed_check_true (sc : Scope) (fs : FS) (t : String)
    (hnest : sc.nesting_level = 0) (hch : sc.check_hash = true)
    (hex : sc.target_existed = true) (ht : fs.target = some t)
    (hdiff : get_hash t ≠ sc.baseline_hash) :
    file_changed_check sc fs = some true := by
  unfold file_changed_check
  rw [ht]
  simp [hnest, hch, hex, hdiff]

/-- `__exit__` takes the restore path when the lock is still ours and the
corruption check reports a changed hash. -/
theorem scope_exit_changed (sc : Scope) (fs : FS) (i : LockInfo)
    (hacc : sc.access = true)
    (hlock : fs.lock = LockFileState.recorded i)
    (hours : lock_is_ours (some i) sc.me = true)
    (hch : file_changed_check sc fs = some true) :
    scope_exit sc fs = (restore sc fs).map (release sc) := by
  unfold scope_exit
  rw [hlock]
  simp [hacc, exit_lock_parse, hours, hch]

/-- `__exit__` takes the restore-then-release path when the lock record no
longer matches the scope's identity. -/
theorem scope_exit_lost (sc : Scope) (fs : FS) (i : LockInfo)
    (hacc : sc.access = true)
    (hlock : fs.lock = LockFileState.recorded i)
    (hnot : lock_is_ours (some i) sc.me = false) :
    scope_exit sc fs = (restore sc fs).map (release sc) := by
  unfold scope_exit
  rw [hlock]
  simp [hacc, exit_lock_parse, hnot]

/-! ## Claims -/

/-- C1, counterexample: a scope with backup disabled (the source default
`backup_during_lock=False`) whose target was externally mutated from
"ORIG" (the content whose hash is the recorded baseline) to "MUT" exits
with the target still holding "MUT" — the external actor's content, not
the pre-scope content — while the caller's writes "W" are sidelined to the
`.result` file.  The claim's disjunction (target ends with the pre-scope
content in both cases) therefore fails on this scope. -/
theorem c1_counterexample :
    scope_exit
      ⟨true, true, false, false, true, 0, true, "ORIG", ⟨1, 2, "h"⟩⟩
      ⟨some "MUT", LockFileState.recorded (lock_record ⟨1, 2, "h"⟩ (-1)),
        some "W", none, none⟩
      = some ⟨some "MUT", LockFileState.absent, none, none, some "W"⟩ ∧
    ("MUT" : String) ≠ "ORIG" := by
  constructor
  · decide
  · decide

/-- C1 (amended): for every scope with backup enabled in which an external
actor mutated the target mid-scope (the rehash at exit differs from the
baseline) and which exits with ownership intact, the target ends with the
pre-scope content restored from the backup, and when shadowing was used
the `.result` sidecar holds the caller's writes; the shadow is never
copied onto the target, partially or otherwise, and the lockfile is gone. -/
theorem c1_amended_backup_restore (sc : Scope) (fs : FS) (i : LockInfo) (t orig : String)
    (hacc : sc.access = true)
    (hlock : fs.lock = LockFileState.recorded i)
    (hours : lock_is_ours (some i) sc.me = true)
    (hbk : sc.do_backup = true)
    (hnest : sc.nesting_level = 0) (hch : sc.check_hash = true)
    (hex : sc.target_existed = true)
    (ht : fs.target = some t)
    (_hbase : sc.baseline_hash = get_hash orig)
    (hchanged : get_hash t ≠ sc.baseline_hash)
    (hb : fs.backup = some orig)
    (htemp : sc.use_temporary = true → ∃ w, fs.temp = some w) :
    ∃ fs1, scope_exit sc fs = some fs1 ∧ fs1.target = some orig ∧
      (sc.use_temporary = true → fs1.result = fs.temp) ∧
      fs1.lock = LockFileState.absent := by
  have hexit := scope_exit_changed sc fs i hacc hlock hours
    (file_changed_check_true sc fs t hnest hch hex ht hchanged)
  by_cases hut : sc.use_temporary = true
  · obtain ⟨w, hw⟩ := htemp hut
    have hres := restore_eq_temp sc fs orig w hacc hbk hb hut hw
    refine ⟨release sc ⟨some orig, fs.lock, none, none, some w⟩, ?_, ?_, ?_, ?_⟩
    · rw [hexit, hres]
      rfl
    · rw [release_target]
    · intro _
      rw [release_result, hw]
    · exact release_lock_absent _ _ hacc
  · have hut' : sc.use_temporary = false := by
      simpa using hut
    have hres := restore_eq_notemp sc fs orig hacc hbk hb hut'
    refine ⟨release sc ⟨some orig, fs.lock, fs.temp, none, fs.result⟩, ?_, ?_, ?_, ?_⟩
    · rw [hexit, hres]
      rfl
    · rw [release_target]
    · intro h
      rw [hut'] at h
      cases h
    · exact release_lock_absent _ _ hacc

/-- C1 witness: the amended claim at a concrete backed-up scope — pre-scope
content "ORIG" (backed up), external mutation to "MUT", caller's writes "W"
in the shadow; the exit restores "ORIG" onto the target, sidelines "W" to
`.result` and removes the lockfile. -/
theorem c1_witness :
    ∃ fs1,
      scope_exit
        ⟨true, true, true, false, true, 0, true, "ORIG", ⟨1, 2, "h"⟩⟩
        ⟨some "MUT", LockFileState.recorded (lock_record ⟨1, 2, "h"⟩ (-1)),
          some "W", some "ORIG", none⟩ = some fs1 ∧
      fs1.target = some "ORIG" ∧
      ((⟨true, true, true, false, true, 0, true, "ORIG", ⟨1, 2, "h"⟩⟩ : Scope).use_temporary = true →
        fs1.result = (⟨some "MUT",
          LockFileState.recorded (lock_record ⟨1, 2, "h"⟩ (-1)),
          some "W", some "ORIG", none⟩ : FS).temp) ∧
      fs1.lock = LockFileState.absent :=
  c1_amended_backup_restore
    ⟨true, true, true, false, true, 0, true, "ORIG", ⟨1, 2, "h"⟩⟩
    ⟨some "MUT", LockFileState.recorded (lock_record ⟨1, 2, "h"⟩ (-1)),
      some "W", some "ORIG", none⟩
    (lock_record ⟨1, 2, "h"⟩ (-1)) "MUT" "ORIG"
    rfl rfl (by decide) rfl rfl rfl rfl rfl rfl (by decide) rfl
    (fun _ => ⟨"W", rfl⟩)

/-- C2, counterexample: the double-check sleep of the acquisition attempt
made from `__init__` has bounds `uniform(0.6, 1.4)` for every scope,
because the call `self._lock_is_available(flock, max_lock_time)` does not
pass the scope's configured `wait`; for a nested scope the claim instead
predicts `uniform(0.6*0.1, 1.4*0.1) = uniform(0.06, 0.14)`, which differs. -/
theorem c2_counterexample :
    init_lock_attempt_events (lock_record ⟨1, 2, "host"⟩ (-1)) =
      [AcqEvent.write_record (lock_record ⟨1, 2, "host"⟩ (-1)),
       AcqEvent.sleep_uniform (3/5) (7/5),
       AcqEvent.reread_lock] ∧
    uniform_bounds (configured_wait 1 1) = (3/50, 7/50) ∧
    ((3/5 : ℚ), (7/5 : ℚ)) ≠ ((3/50 : ℚ), (7/50 : ℚ)) := by
  refine ⟨?_, ?_, ?_⟩
  · norm_num [init_lock_attempt_events, lock_is_available_events,
      lock_is_available_default_wait]
  · norm_num [uniform_bounds, configured_wait, LOCKFILE_NESTING_WAIT]
  · norm_num

/-- C2 (amended): after writing its record into the lockfile, an acquirer
sleeps a jittered duration `uniform(0.6*w, 1.4*w)` with `w = 1` — the
default of the `wait` parameter of `_lock_is_available`, which `__init__`
never overrides — before re-reading the lockpath to confirm its record
survived the race; the scope's configured inter-retry delay (1.0 s
default, 0.1 s nested) governs only the retry sleeps in `_wait`. -/
theorem c2_amended_double_check (record : LockInfo) :
    init_lock_attempt_events record =
      [AcqEvent.write_record record,
       AcqEvent.sleep_uniform (3/5 * lock_is_available_default_wait)
         (7/5 * lock_is_available_default_wait),
       AcqEvent.reread_lock] := rfl

/-- C3 (code bug): the nested reclaim unlinks the outer lockfile for a held
record with `free_after = -1` (the wire encoding of "no expiry") at any
non-negative current time, because the source tests only
`info['free_after'] < time.time()` without the `> 0` guard that the claim
(and `_lock_is_ours`, which writes and checks `free_after > 0` elsewhere)
requires. -/
theorem c3_code_bug_eval :
    reclaim_unlinks_outer (some (lock_record ⟨1, 2, "host"⟩ (-1))) 100 = true ∧
    ¬ ((-1 : ℚ) > 0) := by
  constructor
  · decide
  · norm_num

/-- C4, counterexample: a lockfile record carrying the scope's own
`pid`, `ran` and `machine` but with the `free_after` field missing still
validates as ours — the claim instead says any missing field of the wire
format, `free_after` included, makes validation return "not ours". -/
theorem c4_counterexample :
    lock_is_ours (some ⟨some 1, some 2, some "host", none⟩) ⟨1, 2, "host"⟩ = true := by
  decide

/-- C4 (amended): ownership validation parses the lockfile and compares
only the holder tuple `(pid, ran, machine)`; it returns "ours" exactly
when parsing succeeded and all three of those fields are present and
match.  Parse failure or a missing/mismatched `pid`, `ran` or `machine`
yields "not ours"; `free_after` is not validated (it only gates the
overrun warning). -/
theorem c4_amended_ownership_tuple (parsed : Option LockInfo) (me : Identity) :
    lock_is_ours parsed me = true ↔
      ∃ info, parsed = some info ∧ info.pid = some me.pid ∧
        info.ran = some me.ran ∧ info.machine = some me.machine := by
  cases parsed with
  | none => simp [lock_is_ours]
  | some info =>
    constructor
    · intro h
      by_cases h1 : info.pid = some me.pid
      · by_cases h2 : info.ran = some me.ran
        · by_cases h3 : info.machine = some me.machine
          · exact ⟨info, rfl, h1, h2, h3⟩
          · simp [lock_is_ours, h1, h2, h3] at h
        · simp [lock_is_ours, h1, h2] at h
      · simp [lock_is_ours, h1] at h
    · rintro ⟨info', heq, h1, h2, h3⟩
      rw [Option.some_inj] at heq
      subst heq
      simp [lock_is_ours, h1, h2, h3]

/-- C5: constructing a scope in read mode (`'r' in mode`) on a nonexistent
target raises `FileNotFoundError`, and in exclusive-create mode (`'x' in
mode`, no `'r'`) on an existing regular target raises `FileExistsError`;
both checks run before the lockfile acquisition loop, so in either failing
case the lockfile work is never reached and the lockpath is never
created. -/
theorem c5_prelock_errors (p q : TargetPath) (m1 m2 : List Char)
    (h1 : m1.contains 'r' = true) (h2 : fs_resolve p = FsNode.missing)
    (h3 : m2.contains 'r' = false) (h4 : m2.contains 'x' = true)
    (h5 : fs_resolve q = FsNode.regular) :
    init_prelock p m1 = some InitError.file_not_found ∧
    init_lock_work_reached p m1 = false ∧
    init_prelock q m2 = some InitError.file_exists_error ∧
    init_lock_work_reached q m2 = false := by
  have hpf : path_is_file p = false := by simp [path_is_file, h2]
  have hpe : path_exists p = false := by simp [path_exists, h2]
  have hnp : init_raises_not_implemented p = false := by
    simp [init_raises_not_implemented, hpe]
  have hqf : path_is_file q = true := by simp [path_is_file, h5]
  have hnq : init_raises_not_implemented q = false := by
    simp [init_raises_not_implemented, hqf]
  have h1' : 'r' ∈ m1 := by simpa using h1
  have h3' : 'r' ∉ m2 := by simpa using h3
  have h4' : 'x' ∈ m2 := by simpa using h4
  refine ⟨?_, ?_, ?_, ?_⟩ <;>
    simp [init_prelock, init_lock_work_reached, hnp, hnq, h1', h3', h4', hpf, hqf]

/-- C5 witness: mode "r" on a missing target yields `FileNotFoundError`
and mode "x" on an existing regular file yields `FileExistsError`, with
the lockfile work unreached in both cases. -/
theorem c5_witness :
    init_prelock ⟨false, FsNode.missing⟩ ['r'] = some InitError.file_not_found ∧
    init_lock_work_reached ⟨false, FsNode.missing⟩ ['r'] = false ∧
    init_prelock ⟨false, FsNode.regular⟩ ['x'] = some InitError.file_exists_error ∧
    init_lock_work_reached ⟨false, FsNode.regular⟩ ['x'] = false :=
  c5_prelock_errors ⟨false, FsNode.missing⟩ ⟨false, FsNode.regular⟩ ['r'] ['x']
    (by decide) rfl (by decide) (by decide) rfl

/-- C6: after the lockfile was found already held, the recursive reclaim
branch is taken exactly when `max_lock_time` is set and the nesting level
is strictly below `LOCKFILE_NESTING_MAX_LEVEL = 5`; a scope whose nesting
level has reached 5 (whose effective `max_lock_time` is always set, by the
nested override) instead raises the fatal `RuntimeError("Too many
lockfiles!")`. -/
theorem c6_reclaim_gate (m : Option ℚ) (n : ℕ) (u : Option ℚ) :
    (lock_busy_action m n = BusyAction.reclaim ↔
      m.isSome = true ∧ n < LOCKFILE_NESTING_MAX_LEVEL) ∧
    lock_busy_action (effective_max_lock_time LOCKFILE_NESTING_MAX_LEVEL u)
      LOCKFILE_NESTING_MAX_LEVEL = BusyAction.too_many_locks := by
  constructor
  · cases m with
    | none => simp [lock_busy_action]
    | some v =>
      by_cases h : n < LOCKFILE_NESTING_MAX_LEVEL <;> simp [lock_busy_action, h]
  · simp [effective_max_lock_time, lock_busy_action, LOCKFILE_NESTING_MAX_LEVEL]

/-- C7, counterexample: a target path that is a symbolic link resolving to
a regular file does not raise `NotImplementedError` — `__init__`
canonicalizes the path first, so `is_file()` sees the resolved regular
file; construction proceeds with no pre-lock error at all. -/
theorem c7_counterexample :
    init_raises_not_implemented ⟨true, FsNode.regular⟩ = false ∧
    init_prelock ⟨true, FsNode.regular⟩ ['r'] = none := by
  decide

/-- C7 (amended): constructing a scope raises `NotImplementedError`
exactly when the resolved target exists but is not a regular file (a
directory, or a symlink resolving to a directory); a symlink resolving to
a regular file is treated as that file, and a broken symlink as a
nonexistent target. -/
theorem c7_amended_not_implemented (p : TargetPath) :
    init_raises_not_implemented p = true ↔
      path_exists p = true ∧ path_is_file p = false := by
  obtain ⟨s, n⟩ := p
  cases n <;>
    simp [init_raises_not_implemented, path_is_file, path_exists, fs_resolve]

/-- C8 (code bug): `release` on a scope object whose `__init__` raised
before `self._access = False` was assigned (for example mode `'r'` on a
missing target) raises `AttributeError`, because the very first statement
`if not self._access` reads the attribute without the `hasattr` guard that
protects every later step — contradicting the claim (and the source's own
comment that release is made "to make sure this never fails"). -/
theorem c8_code_bug_eval :
    release_attrs ⟨false, false, false, false, false, false, false, false, false⟩
      ⟨none, LockFileState.absent, none, none, none⟩
      = Except.error PyError.attribute_error := rfl

/-- C9: `release` unlinks the lockpath whenever a file exists there,
without re-checking ownership — for every filesystem state, release on an
acquired scope leaves the lock absent; in particular, when `__exit__`
finds the lock record no longer matches the scope's identity, the
subsequent release still deletes the lockfile, which at that moment
identifies a different holder. -/
theorem c9_release_deletes_foreign_lock (sc : Scope) (fs fs1 : FS) (other : LockInfo)
    (hacc : sc.access = true)
    (hlock : fs.lock = LockFileState.recorded other)
    (hnot : lock_is_ours (some other) sc.me = false)
    (hrestore : restore sc fs = some fs1) :
    scope_exit sc fs = some (release sc fs1) ∧
    (release sc fs1).lock = LockFileState.absent ∧
    ∀ g : FS, (release sc g).lock = LockFileState.absent := by
  refine ⟨?_, release_lock_absent sc fs1 hacc, fun g => release_lock_absent sc g hacc⟩
  rw [scope_exit_lost sc fs other hacc hlock hnot, hrestore]
  rfl

/-- C9 witness: a read-only-style scope (no shadow, no backup) whose
lockfile was overwritten by another holder `(9, 9, "other")`: exit
restores (a no-op here) and releases, deleting that other holder's
lockfile. -/
theorem c9_witness :
    scope_exit
      ⟨true, false, false, false, true, 0, true, "ORIG", ⟨1, 2, "h"⟩⟩
      ⟨some "ORIG", LockFileState.recorded (lock_record ⟨9, 9, "other"⟩ 5),
        none, none, none⟩
      = some (release
          ⟨true, false, false, false, true, 0, true, "ORIG", ⟨1, 2, "h"⟩⟩
          ⟨some "ORIG", LockFileState.recorded (lock_record ⟨9, 9, "other"⟩ 5),
            none, none, none⟩) ∧
    (release
      ⟨true, false, false, false, true, 0, true, "ORIG", ⟨1, 2, "h"⟩⟩
      ⟨some "ORIG", LockFileState.recorded (lock_record ⟨9, 9, "other"⟩ 5),
        none, none, none⟩).lock = LockFileState.absent ∧
    ∀ g : FS, (release
      ⟨true, false, false, false, true, 0, true, "ORIG", ⟨1, 2, "h"⟩⟩ g).lock
        = LockFileState.absent :=
  c9_release_deletes_foreign_lock
    ⟨true, false, false, false, true, 0, true, "ORIG", ⟨1, 2, "h"⟩⟩
    ⟨some "ORIG", LockFileState.recorded (lock_record ⟨9, 9, "other"⟩ 5),
      none, none, none⟩
    ⟨some "ORIG", LockFileState.recorded (lock_record ⟨9, 9, "other"⟩ 5),
      none, none, none⟩
    (lock_record ⟨9, 9, "other"⟩ 5)
    rfl rfl (by decide) (by decide)

/-- C10: when corruption is detected at exit on a scope with backup
enabled, `restore` renames the backup onto the target, consuming the
backup file; the backup-unlinking guard in `release` then finds no backup,
so after such an exit no backup file remains on disk — for every value of
`keep_backup`, including `keep_backup = true` (`backup=True`). -/
theorem c10_backup_consumed (sc : Scope) (fs : FS) (i : LockInfo) (t b : String)
    (hacc : sc.access = true)
    (hlock : fs.lock = LockFileState.recorded i)
    (hours : lock_is_ours (some i) sc.me = true)
    (hbk : sc.do_backup = true)
    (hnest : sc.nesting_level = 0) (hch : sc.check_hash = true)
    (hex : sc.target_existed = true)
    (ht : fs.target = some t)
    (hchanged : get_hash t ≠ sc.baseline_hash)
    (hb : fs.backup = some b)
    (htemp : sc.use_temporary = true → ∃ w, fs.temp = some w) :
    ∃ fs1, scope_exit sc fs = some fs1 ∧ fs1.backup = none := by
  have hexit := scope_exit_changed sc fs i hacc hlock hours
    (file_changed_check_true sc fs t hnest hch hex ht hchanged)
  by_cases hut : sc.use_temporary = true
  · obtain ⟨w, hw⟩ := htemp hut
    have hres := restore_eq_temp sc fs b w hacc hbk hb hut hw
    refine ⟨release sc ⟨some b, fs.lock, none, none, some w⟩, ?_, ?_⟩
    · rw [hexit, hres]
      rfl
    · exact release_backup_none _ _ rfl
  · have hut' : sc.use_temporary = false := by
      simpa using hut
    have hres := restore_eq_notemp sc fs b hacc hbk hb hut'
    refine ⟨release sc ⟨some b, fs.lock, fs.temp, none, fs.result⟩, ?_, ?_⟩
    · rw [hexit, hres]
      rfl
    · exact release_backup_none _ _ rfl

/-- C10 witness: a scope with `backup=True` (`keep_backup`) whose target
was externally mutated: after exit the backup slot is empty — the backup
was consumed by the restore rename despite `keep_backup`. -/
theorem c10_witness :
    ∃ fs1,
      scope_exit
        ⟨true, true, true, true, true, 0, true, "ORIG", ⟨1, 2, "h"⟩⟩
        ⟨some "MUT", LockFileState.recorded (lock_record ⟨1, 2, "h"⟩ (-1)),
          some "W", some "ORIG", none⟩ = some fs1 ∧
      fs1.backup = none :=
  c10_backup_consumed
    ⟨true, true, true, true, true, 0, true, "ORIG", ⟨1, 2, "h"⟩⟩
    ⟨some "MUT", LockFileState.recorded (lock_record ⟨1, 2, "h"⟩ (-1)),
      some "W", some "ORIG", none⟩
    (lock_record ⟨1, 2, "h"⟩ (-1)) "MUT" "ORIG"
    rfl rfl (by decide) rfl rfl rfl rfl rfl (by decide) rfl
    (fun _ => ⟨"W", rfl⟩)

end ProtectFile
